import Mathlib

/-!
Verification of the SistemaVendas point-of-sale application.

The definitions below are a shallow embedding of the request handlers in
src/app.js (and the matching variants in src/unnamed/part_000 and
src/unnamed/part_001) over a pure record of the relational store described
by src/banco.sql.  Monetary values (Postgres numeric columns) are modelled
as rationals; the node-postgres driver delivers numeric columns to the
JavaScript code as decimal strings, which is modelled where the JavaScript
truthiness of those strings matters (see getPrecoRaw).  Machine integers of
the schema are modelled as Int / Nat.  Fallible handlers return Except;
the BEGIN/COMMIT/ROLLBACK transaction discipline is modelled by returning
the untouched input store on the error path, exactly as a rolled-back
transaction leaves the database.
-/

namespace SistemaVendas

/-! ### JavaScript primitive models -/

/-- Model of JavaScript String.prototype.trim: drop whitespace from both
ends.  (Written over the character list so proofs and witnesses can
evaluate it.) -/
def trimStr (s : String) : String :=
  ⟨((s.data.dropWhile Char.isWhitespace).reverse.dropWhile Char.isWhitespace).reverse⟩

/-- Model of JavaScript toUpperCase on the ASCII strings the application
compares. -/
def toUpperStr (s : String) : String :=
  ⟨s.data.map Char.toUpper⟩

/-- Model of JavaScript String.prototype.startsWith. -/
def startsWithStr (s pre : String) : Bool :=
  pre.data.isPrefixOf s.data

/-- Numeric value of a list of decimal digit characters. -/
def digitsToNat (ds : List Char) : Nat :=
  ds.foldl (fun a c => a * 10 + (c.toNat - 48)) 0

/-- Model of JavaScript parseInt with the default radix on a decimal
string: skip leading whitespace, read an optional sign, then the longest
prefix of decimal digits; no digits gives NaN, modelled as none.
(The hexadecimal 0x prefix form of parseInt is not exercised by the
application, whose quantity fields are decimal form inputs.) -/
def parseIntJS (s : String) : Option Int :=
  let cs := s.data.dropWhile (fun c => c.isWhitespace)
  match cs with
  | '-' :: rest =>
    let ds := rest.takeWhile (fun c => c.isDigit)
    if ds.isEmpty then none else some (-(digitsToNat ds : Int))
  | '+' :: rest =>
    let ds := rest.takeWhile (fun c => c.isDigit)
    if ds.isEmpty then none else some (digitsToNat ds : Int)
  | _ =>
    let ds := cs.takeWhile (fun c => c.isDigit)
    if ds.isEmpty then none else some (digitsToNat ds : Int)

/-- Model of JavaScript Number on a plain decimal string: optional sign,
integer digits, optional fractional digits.  Anything else is NaN,
modelled as none.  (Exponent and hexadecimal forms are not used by the
spreadsheets the import consumes.) -/
def parseDecimal (s : String) : Option ℚ :=
  let (neg, cs) :=
    match s.data with
    | '-' :: rest => (true, rest)
    | '+' :: rest => (false, rest)
    | cs => (false, cs)
  let intPart := cs.takeWhile (fun c => c.isDigit)
  let rest := cs.drop intPart.length
  let build : List Char → List Char → Option ℚ := fun ip fp =>
    if ip.isEmpty ∧ fp.isEmpty then none
    else
      let v : ℚ := (digitsToNat ip : ℚ) + (digitsToNat fp : ℚ) / ((10 : ℚ) ^ fp.length)
      some (if neg then -v else v)
  match rest with
  | [] => build intPart []
  | '.' :: frac => if frac.all (fun c => c.isDigit) then build intPart frac else none
  | _ => none

/-- JavaScript Number applied to a spreadsheet cell: an absent cell is
undefined and yields NaN (none); the empty string yields 0; otherwise the
decimal string is parsed. -/
def jsNumberCell (c : Option String) : Option ℚ :=
  match c with
  | none => none
  | some s => if trimStr s = "" then some 0 else parseDecimal (trimStr s)

/-- String.padStart from JavaScript: left-pad with a fill character up to
the requested length. -/
def padStartStr (s : String) (n : Nat) (c : Char) : String :=
  ⟨List.replicate (n - s.data.length) c ++ s.data⟩

/-- String.slice with a negative start: the last n characters. -/
def sliceLast (s : String) (n : Nat) : String :=
  ⟨s.data.drop (s.data.length - n)⟩

/-! ### Helper functions of app.js -/

/-- Strip the punctuation the CPF cleaner removes: dots and hyphens
(the replace of the character class dot-hyphen, globally). -/
def stripPunct (s : String) : String :=
  ⟨s.data.filter (fun c => ¬(c = '.' ∨ c = '-'))⟩

/-- cleanAndValidateCPF from app.js: strip dots and hyphens, trim, then
require exactly eleven decimal digits; otherwise throw the descriptive
error.  The thrown exception is modelled as the error branch. -/
def cleanAndValidateCPF (cpf : String) : Except String String :=
  let cleanedCPF := trimStr (stripPunct cpf)
  if cleanedCPF.data.length = 11 ∧ cleanedCPF.data.all (fun c => c.isDigit) then
    Except.ok cleanedCPF
  else
    Except.error "CPF inválido. Deve conter 11 dígitos numéricos."

/-- formatBarcodeFromId from app.js: render the id (JavaScript String of
id-or-else-empty, so 0 renders as the empty string), left-pad with zeros
to width 12 and keep the last 12 characters.  Both branches of the source
conditional return this same expression. -/
def formatBarcodeFromId (id : Nat) : String :=
  let s := if id = 0 then "" else toString id
  sliceLast (padStartStr s 12 '0') 12

/-! ### The relational store (banco.sql) -/

structure Produto where
  id : Nat
  nome : String
  barcode : Option String
  valor_unitario : ℚ
  valor_venda : Option ℚ
  descricao : Option String
  etiquetas_impressas : Bool
deriving Repr, DecidableEq

structure EstoqueRow where
  id_produto : Nat
  quantidade : Int
deriving Repr, DecidableEq

structure Cliente where
  id : Nat
  nome : String
  cpf : String
  email : Option String
  telefone : Option String
  endereco : Option String
deriving Repr, DecidableEq

structure Venda where
  id : Nat
  id_cliente : Option Nat
  total : ℚ
  status : Option String
deriving Repr, DecidableEq

structure ItemVenda where
  id_venda : Nat
  id_produto : Nat
  quantidade : Int
  preco_unitario : ℚ
deriving Repr, DecidableEq

/-- The business tables of banco.sql, with the serial id counters made
explicit. -/
structure Store where
  produtos : List Produto
  estoque : List EstoqueRow
  clientes : List Cliente
  vendas : List Venda
  itens_venda : List ItemVenda
  nextProdutoId : Nat
  nextVendaId : Nat
  nextClienteId : Nat
deriving Repr, DecidableEq

/-! ### SQL statement models -/

/-- SELECT ... FROM produtos WHERE barcode = $1, first row. -/
def findProdutoByBarcode (st : Store) (b : String) : Option Produto :=
  st.produtos.find? (fun p => p.barcode == some b)

/-- SELECT ... FROM produtos WHERE id = $1, first row. -/
def findProduto (st : Store) (pid : Nat) : Option Produto :=
  st.produtos.find? (fun p => p.id == pid)

/-- The LEFT JOIN with estoque: the quantity of the first stock row of a
product, null when the product has no stock row. -/
def estoqueOf (st : Store) (pid : Nat) : Option Int :=
  (st.estoque.find? (fun r => r.id_produto == pid)).map (fun r => r.quantidade)

/-- UPDATE estoque SET quantidade = quantidade - $1 WHERE id_produto = $2. -/
def decEstoque (st : Store) (pid : Nat) (q : Int) : Store :=
  { st with estoque := st.estoque.map (fun r =>
      if r.id_produto == pid then { r with quantidade := r.quantidade - q } else r) }

/-- UPDATE estoque SET quantidade = COALESCE(quantidade,0) + $1
WHERE id_produto = $2 (quantidade is NOT NULL, so the COALESCE is inert). -/
def incEstoque (st : Store) (pid : Nat) (q : Int) : Store :=
  { st with estoque := st.estoque.map (fun r =>
      if r.id_produto == pid then { r with quantidade := r.quantidade + q } else r) }

/-- SELECT ... FROM vendas WHERE id = $1, first row. -/
def findVenda (st : Store) (vid : Nat) : Option Venda :=
  st.vendas.find? (fun v => v.id == vid)

/-- SELECT ... FROM itens_venda WHERE id_venda = $1. -/
def vendaItems (st : Store) (vid : Nat) : List ItemVenda :=
  st.itens_venda.filter (fun it => it.id_venda == vid)

/-! ### Price resolution (getPreco and the POST /vendas loop) -/

/-- The unit price resolution of the sale loop at the value level: the
sale price when present, else the unit cost.  This is the JavaScript
expression Number of valor_venda or-else valor_unitario or-else 0, given
that the driver delivers non-null numeric columns as nonempty decimal
strings; the raw string-level chain is getPrecoRaw below, and the
correspondence is the subject of claim C7. -/
def precoResolvido (p : Produto) : ℚ :=
  p.valor_venda.getD p.valor_unitario

/-- The or-else chain of getPreco as it runs on the raw driver values:
valor_venda is a decimal string or null, valor_unitario a decimal string;
an operand is falsy exactly when it is null or the empty string, and the
final fallback is the number 0 (rendered here as its decimal string). -/
def getPrecoRaw (valor_venda : Option String) (valor_unitario : String) : String :=
  let first :=
    match valor_venda with
    | some s => if s = "" then valor_unitario else s
    | none => valor_unitario
  if first = "" then "0" else first

/-! ### POST /vendas : the sale transaction workflow -/

/-- One requested item of the sale body: form values arrive as strings. -/
structure ItemReq where
  barcode : String
  quantidade : String
deriving Repr, DecidableEq

/-- One iteration of the sale loop, threading the transaction-local store
and the running total.  Mirrors the body of the for-of loop of
POST /vendas: truthiness check on barcode and quantidade, parseInt with
the isNaN / non-positive guard, product lookup by barcode LEFT JOINed
with estoque, the insufficient stock guard (a null stock compares as 0),
the price resolution, the line item insert and the stock decrement.
The interpolated identifiers of the thrown messages are elided. -/
def processItem (st : Store) (id_venda : Nat) (item : ItemReq) (total : ℚ) :
    Except String (Store × ℚ) :=
  if item.barcode = "" ∨ item.quantidade = "" then
    Except.error "Código de barras ou quantidade inválida"
  else
    match parseIntJS item.quantidade with
    | none => Except.error "Quantidade inválida para o item"
    | some quantidade =>
      if quantidade ≤ 0 then Except.error "Quantidade inválida para o item"
      else
        match findProdutoByBarcode st item.barcode with
        | none => Except.error "Produto não encontrado"
        | some produto =>
          if (estoqueOf st produto.id).getD 0 < quantidade then
            Except.error "Estoque insuficiente para o produto"
          else
            let preco_unitario := precoResolvido produto
            let st1 : Store :=
              { st with itens_venda :=
                  st.itens_venda ++ [⟨id_venda, produto.id, quantidade, preco_unitario⟩] }
            Except.ok (decEstoque st1 produto.id quantidade,
                       total + (quantidade : ℚ) * preco_unitario)

/-- The for-of loop over the requested items. -/
def processItens : Store → Nat → List ItemReq → ℚ → Except String (Store × ℚ)
  | st, _, [], total => Except.ok (st, total)
  | st, idv, item :: rest, total =>
    match processItem st idv item total with
    | Except.error e => Except.error e
    | Except.ok (st1, t1) => processItens st1 idv rest t1

/-- The body of the POST /vendas transaction: reject an empty item list,
insert the sale header with total 0 (status takes the schema default
CONCLUIDA), run the loop, then write the accumulated total back onto the
header. -/
def processVenda (st : Store) (id_cliente : Option Nat) (itens : List ItemReq) :
    Except String Store :=
  if itens.isEmpty then Except.error "Nenhum item adicionado à venda"
  else
    let idv := st.nextVendaId
    let st1 : Store :=
      { st with vendas := st.vendas ++ [⟨idv, id_cliente, 0, some "CONCLUIDA"⟩],
                nextVendaId := idv + 1 }
    match processItens st1 idv itens 0 with
    | Except.error e => Except.error e
    | Except.ok (st2, total) =>
      Except.ok { st2 with vendas := st2.vendas.map (fun v =>
          if v.id == idv then { v with total := total } else v) }

/-- The whole POST /vendas handler: a thrown error reaches the catch
block, which issues ROLLBACK, so the committed store is the input store. -/
def postVendas (st : Store) (id_cliente : Option Nat) (itens : List ItemReq) : Store :=
  match processVenda st id_cliente itens with
  | Except.ok st2 => st2
  | Except.error _ => st

/-! ### POST /vendas/:id/reverter : sale reversal -/

/-- The already-cancelled test of the reversal handler:
(venda.status or-else empty).toUpperCase().startsWith(CANCEL). -/
def statusCancelada (s : Option String) : Bool :=
  startsWithStr (toUpperStr (s.getD "")) "CANCEL"

/-- POST /vendas/:id/reverter: lock and read the sale row, reject a
missing or already cancelled sale with the store untouched (ROLLBACK of a
read-only transaction), otherwise add each line item quantity back onto
the product stock, stamp the status CANCELADA and commit.  The returned
option is the error payload of the JSON response, none on success. -/
def reverterVenda (st : Store) (vid : Nat) : Store × Option String :=
  match findVenda st vid with
  | none => (st, some "Venda não encontrada.")
  | some venda =>
    if statusCancelada venda.status then
      (st, some "Venda já está cancelada.")
    else
      let itens := vendaItems st vid
      let st1 := itens.foldl (fun acc it => incEstoque acc it.id_produto it.quantidade) st
      let st2 : Store :=
        { st1 with vendas := st1.vendas.map (fun v =>
            if v.id == vid then { v with status := some "CANCELADA" } else v) }
      (st2, none)

/-! ### Product handlers -/

/-- The product form body; the client may submit a barcode, which the
later-revision handlers never read. -/
structure ProdutoForm where
  nome : String
  barcode : String
  valor_unitario : ℚ
  valor_venda : Option ℚ
  descricao : Option String
  quantidade : String
deriving Repr, DecidableEq

/-- The first INSERT of POST /produtos: the new row gets a null barcode
because the id is not known before insertion. -/
def postProdutosInsert (st : Store) (form : ProdutoForm) : Store × Nat :=
  let pid := st.nextProdutoId
  ({ st with
      produtos := st.produtos ++
        [⟨pid, form.nome, none, form.valor_unitario, form.valor_venda, form.descricao, false⟩],
      nextProdutoId := pid + 1 }, pid)

/-- POST /produtos: insert with a null barcode, derive the forced barcode
from the returned id and update the row, then insert the stock row with
parseInt of the quantity or-else 0. -/
def postProdutos (st : Store) (form : ProdutoForm) : Store :=
  let (st1, pid) := postProdutosInsert st form
  let st2 : Store :=
    { st1 with produtos := st1.produtos.map (fun p =>
        if p.id == pid then { p with barcode := some (formatBarcodeFromId pid) } else p) }
  { st2 with estoque := st2.estoque ++ [⟨pid, (parseIntJS form.quantidade).getD 0⟩] }

/-- POST /produtos/editar/:id: overwrite the row, forcing the barcode
from the route id, and overwrite the stock quantity. -/
def postProdutosEditar (st : Store) (pid : Nat) (form : ProdutoForm) : Store :=
  let st1 : Store :=
    { st with produtos := st.produtos.map (fun p =>
        if p.id == pid then
          { p with nome := form.nome,
                   barcode := some (formatBarcodeFromId pid),
                   valor_unitario := form.valor_unitario,
                   valor_venda := form.valor_venda,
                   descricao := form.descricao }
        else p) }
  { st1 with estoque := st1.estoque.map (fun r =>
      if r.id_produto == pid then { r with quantidade := (parseIntJS form.quantidade).getD 0 }
      else r) }

/-- POST /produtos/deletar/:id (no cascade is declared in banco.sql). -/
def deleteProduto (st : Store) (pid : Nat) : Store :=
  { st with produtos := st.produtos.filter (fun p => ¬(p.id == pid)) }

/-- POST /produtos/toggle-impresso/:id. -/
def toggleImpresso (st : Store) (pid : Nat) : Store :=
  { st with produtos := st.produtos.map (fun p =>
      if p.id == pid then { p with etiquetas_impressas := ¬p.etiquetas_impressas } else p) }

/-- The UPDATE of GET /produtos/etiqueta/:id, which marks the labels
printed. -/
def marcaEtiqueta (st : Store) (pid : Nat) : Store :=
  { st with produtos := st.produtos.map (fun p =>
      if p.id == pid then { p with etiquetas_impressas := true } else p) }

/-! ### Customer handlers -/

structure ClienteForm where
  nome : String
  cpf : String
  email : Option String
  telefone : Option String
  endereco : Option String
deriving Repr, DecidableEq

/-- Outcome of a customer mutation: success, or the redirect back to the
list page carrying the error message and the preserved form input. -/
inductive ClienteResult where
  | ok : ClienteResult
  | errRedirect (error : String) (formData : ClienteForm) : ClienteResult
deriving Repr, DecidableEq

/-- POST /clientes: require a name, clean and validate the CPF, reject a
CPF already present, else insert. -/
def postClientes (st : Store) (form : ClienteForm) : Store × ClienteResult :=
  if form.nome = "" then (st, ClienteResult.errRedirect "Nome é obrigatório" form)
  else
    match cleanAndValidateCPF form.cpf with
    | Except.error e => (st, ClienteResult.errRedirect e form)
    | Except.ok cleanedCPF =>
      if st.clientes.any (fun c => c.cpf == cleanedCPF) then
        (st, ClienteResult.errRedirect "CPF já cadastrado" form)
      else
        ({ st with
            clientes := st.clientes ++
              [⟨st.nextClienteId, form.nome, cleanedCPF, form.email, form.telefone, form.endereco⟩],
            nextClienteId := st.nextClienteId + 1 }, ClienteResult.ok)

/-- POST /clientes/editar/:id: as the create, but the duplicate check
excludes the row being edited. -/
def postClientesEditar (st : Store) (cid : Nat) (form : ClienteForm) : Store × ClienteResult :=
  if form.nome = "" then (st, ClienteResult.errRedirect "Nome é obrigatório" form)
  else
    match cleanAndValidateCPF form.cpf with
    | Except.error e => (st, ClienteResult.errRedirect e form)
    | Except.ok cleanedCPF =>
      if st.clientes.any (fun c => c.cpf == cleanedCPF && !(c.id == cid)) then
        (st, ClienteResult.errRedirect "CPF já cadastrado para outro cliente" form)
      else
        ({ st with clientes := st.clientes.map (fun c =>
            if c.id == cid then
              { c with nome := form.nome, cpf := cleanedCPF, email := form.email,
                       telefone := form.telefone, endereco := form.endereco }
            else c) }, ClienteResult.ok)

/-- POST /clientes/deletar/:id. -/
def deleteCliente (st : Store) (cid : Nat) : Store :=
  { st with clientes := st.clientes.filter (fun c => ¬(c.id == cid)) }

/-! ### POST /carga-produtos : bulk import -/

/-- One spreadsheet row as the array-of-cells form the sheet parser
produces; an absent cell is none.  Cells are carried as the strings
the bulk load coerces them to. -/
structure ExcelRow where
  c0 : Option String
  c1 : Option String
  c2 : Option String
  c3 : Option String
  c4 : Option String
  c5 : Option String
deriving Repr, DecidableEq

/-- The skip test of the import loop: a falsy first cell, or a first cell
reading TOTAL once uppercased. -/
def rowSkipped (row : ExcelRow) : Prop :=
  row.c0 = none ∨ row.c0 = some "" ∨ toUpperStr (row.c0.getD "") = "TOTAL"

instance (row : ExcelRow) : Decidable (rowSkipped row) := by
  unfold rowSkipped; infer_instance

/-- One data row of POST /carga-produtos: skip the TOTAL / empty rows,
skip a row whose quantity is NaN or negative, otherwise run its per-row
transaction (insert the product with a null barcode, derive and update
the forced barcode, insert the stock row with the floored quantity). -/
def cargaStep (st : Store) (row : ExcelRow) : Store :=
  if rowSkipped row then st
  else
    match jsNumberCell row.c1 with
    | none => st
    | some quantidade =>
      if quantidade < 0 then st
      else
        let descricao := trimStr (row.c0.getD "")
        let valorUnitario := (jsNumberCell row.c4).getD 0
        let valorVenda :=
          match jsNumberCell row.c5 with
          | none => valorUnitario
          | some v => if v = 0 then valorUnitario else v
        let pid := st.nextProdutoId
        let st1 : Store :=
          { st with
              produtos := st.produtos ++
                [⟨pid, descricao, none, valorUnitario, some valorVenda, some descricao, false⟩],
              nextProdutoId := pid + 1 }
        let st2 : Store :=
          { st1 with produtos := st1.produtos.map (fun p =>
              if p.id == pid then { p with barcode := some (formatBarcodeFromId pid) } else p) }
        { st2 with estoque := st2.estoque ++ [⟨pid, ⌊quantidade⌋⟩] }

/-- The import loop over the data rows. -/
def cargaLoop : Store → List ExcelRow → Store
  | st, [] => st
  | st, row :: rest => cargaLoop (cargaStep st row) rest

/-- The import loop when the database fails inside the transaction of the
k-th remaining row: the own transaction of that row is rolled back by the
catch block (its writes all sit between its BEGIN and the failure), and
the loop aborts, leaving the rows already committed. -/
def cargaLoopFailAt : Store → List ExcelRow → Nat → Store
  | st, [], _ => st
  | st, _ :: _, 0 => st
  | st, row :: rest, Nat.succ k => cargaLoopFailAt (cargaStep st row) rest k

/-- POST /carga-produtos on a whole sheet: the loop starts at index 1,
skipping the header row. -/
def carga (st : Store) (data : List ExcelRow) : Store :=
  cargaLoop st (data.drop 1)

/-- POST /carga-produtos when the database fails at data row k (sheet
row 1 + k). -/
def cargaWithFailure (st : Store) (data : List ExcelRow) (k : Nat) : Store :=
  cargaLoopFailAt st (data.drop 1) k

/-! ### Spec-side definitions (for refinement claims) -/

/-- Modelled from the spec wording of C4: a tax identifier is acceptable
exactly when, after stripping dots and hyphens and trimming, what remains
is exactly 11 decimal digit characters. -/
def specAcceptsCPF (s : String) : Prop :=
  (trimStr (stripPunct s)).data.length = 11 ∧
  ∀ c ∈ (trimStr (stripPunct s)).data, c.isDigit

instance (s : String) : Decidable (specAcceptsCPF s) := by
  unfold specAcceptsCPF; infer_instance

/-- Modelled from the spec wording of C6: the product id rendered in
decimal and zero-padded on the left to width 12. -/
def specBarcode (id : Nat) : String :=
  padStartStr (toString id) 12 '0'

/-! ### The state-mutating operations of the system (for C10) -/

/-- Every handler of the application that writes to the business tables. -/
inductive Op where
  | vendas (id_cliente : Option Nat) (itens : List ItemReq) : Op
  | reverter (vid : Nat) : Op
  | produtoCreate (form : ProdutoForm) : Op
  | produtoEdit (pid : Nat) (form : ProdutoForm) : Op
  | produtoDelete (pid : Nat) : Op
  | produtoToggle (pid : Nat) : Op
  | produtoEtiqueta (pid : Nat) : Op
  | clienteCreate (form : ClienteForm) : Op
  | clienteEdit (cid : Nat) (form : ClienteForm) : Op
  | clienteDelete (cid : Nat) : Op
  | cargaProdutos (data : List ExcelRow) : Op

/-- Dispatch one request to its handler. -/
def stepOp (st : Store) : Op → Store
  | Op.vendas idc itens => postVendas st idc itens
  | Op.reverter vid => (reverterVenda st vid).1
  | Op.produtoCreate form => postProdutos st form
  | Op.produtoEdit pid form => postProdutosEditar st pid form
  | Op.produtoDelete pid => deleteProduto st pid
  | Op.produtoToggle pid => toggleImpresso st pid
  | Op.produtoEtiqueta pid => marcaEtiqueta st pid
  | Op.clienteCreate form => (postClientes st form).1
  | Op.clienteEdit cid form => (postClientesEditar st cid form).1
  | Op.clienteDelete cid => deleteCliente st cid
  | Op.cargaProdutos data => carga st data

deriving instance DecidableEq for Except

/-! ### Concrete data used by the witnesses -/

def demoProduto1 : Produto := ⟨1, "Caneta", some "000000000001", 5, some 8, none, false⟩

def demoProduto2 : Produto := ⟨2, "Caderno", some "000000000002", 3, none, none, false⟩

def demoVenda1 : Venda := ⟨1, some 1, 16, some "CONCLUIDA"⟩

/-- A small populated store: two products with stock, one customer, one
concluded sale of two pens. -/
def demoStore : Store :=
  { produtos := [demoProduto1, demoProduto2],
    estoque := [⟨1, 10⟩, ⟨2, 5⟩],
    clientes := [⟨1, "Ana", "12345678901", none, none, none⟩],
    vendas := [demoVenda1],
    itens_venda := [⟨1, 1, 2, 8⟩],
    nextProdutoId := 3,
    nextVendaId := 2,
    nextClienteId := 2 }

/-- A well-formed sale request against demoStore. -/
def demoItens : List ItemReq := [⟨"000000000001", "2"⟩, ⟨"000000000002", "3"⟩]

/-- A sale request whose second item has an unknown barcode. -/
def demoItensBad : List ItemReq := [⟨"000000000001", "1"⟩, ⟨"999", "1"⟩]

/-- demoStore with its sale already cancelled. -/
def demoStoreCancel : Store :=
  { demoStore with vendas := [⟨1, some 1, 16, some "CANCELADA"⟩] }

/-! ### Derived quantities used by the claims -/

/-- The sum of the derived subtotal column (quantidade times
preco_unitario, the generated column of itens_venda) over a list of line
items. -/
def somaSubtotais (l : List ItemVenda) : ℚ :=
  (l.map (fun it => (it.quantidade : ℚ) * it.preco_unitario)).sum

/-- Total quantity a reversal returns to one product: the sum of the
quantities of the line items of the sale that reference it. -/
def qtyRevertida (itens : List ItemVenda) (pid : Nat) : Int :=
  ((itens.filter (fun it => it.id_produto == pid)).map (fun it => it.quantidade)).sum

/-- An item of a sale request that the loop must reject against a given
store: falsy barcode or quantity, unparsable or non-positive quantity,
unknown barcode, or requested quantity exceeding the available stock
(a missing stock row reading as 0). -/
def badItem (st : Store) (item : ItemReq) : Prop :=
  item.barcode = "" ∨ item.quantidade = "" ∨
  parseIntJS item.quantidade = none ∨
  (∃ q, parseIntJS item.quantidade = some q ∧ q ≤ 0) ∨
  findProdutoByBarcode st item.barcode = none ∨
  (∃ q p, parseIntJS item.quantidade = some q ∧
    findProdutoByBarcode st item.barcode = some p ∧
    (estoqueOf st p.id).getD 0 < q)

/-- What the sale loop can do to the store as it runs: the product table
is untouched and stock quantities never increase. -/
def StWeaker (st0 st : Store) : Prop :=
  st.produtos = st0.produtos ∧
  ∀ pid, (estoqueOf st pid).getD 0 ≤ (estoqueOf st0 pid).getD 0

/-! ### List helper lemmas -/

theorem find?_map_self {α : Type} {f : α → α} {p : α → Bool} (l : List α)
    (h : ∀ a, p (f a) = p a) :
    (l.map f).find? p = (l.find? p).map f := by
  rw [List.find?_map]
  have hpf : p ∘ f = p := funext h
  rw [hpf]

theorem estoqueOf_decEstoque (st : Store) (pid q pid2) :
    estoqueOf (decEstoque st pid q) pid2 =
      (estoqueOf st pid2).map (fun s => if pid2 = pid then s - q else s) := by
  unfold estoqueOf decEstoque
  rw [find?_map_self]
  · cases hfind : st.estoque.find? (fun r => r.id_produto == pid2) with
    | none => rfl
    | some r =>
      have hr : r.id_produto = pid2 := by
        have := List.find?_some hfind
        simpa using this
      by_cases hp : pid2 = pid <;> simp [hr, hp]
  · intro a
    by_cases h : a.id_produto == pid <;> simp [h]

theorem estoqueOf_incEstoque (st : Store) (pid q pid2) :
    estoqueOf (incEstoque st pid q) pid2 =
      (estoqueOf st pid2).map (fun s => if pid2 = pid then s + q else s) := by
  unfold estoqueOf incEstoque
  rw [find?_map_self]
  · cases hfind : st.estoque.find? (fun r => r.id_produto == pid2) with
    | none => rfl
    | some r =>
      have hr : r.id_produto = pid2 := by
        have := List.find?_some hfind
        simpa using this
      by_cases hp : pid2 = pid <;> simp [hr, hp]
  · intro a
    by_cases h : a.id_produto == pid <;> simp [h]

theorem estoque_find?_eq (l : List EstoqueRow) (r : EstoqueRow)
    (hnd : (l.map (fun x => x.id_produto)).Nodup) (hr : r ∈ l) :
    l.find? (fun x => x.id_produto == r.id_produto) = some r := by
  induction l with
  | nil => cases hr
  | cons a t ih =>
    rcases List.mem_cons.mp hr with h | h
    · subst h
      exact List.find?_cons_of_pos _ (by simp)
    · have hne : ¬(a.id_produto == r.id_produto) = true := by
        simp only [List.map_cons, List.nodup_cons] at hnd
        intro hb
        exact hnd.1 (by
          have : a.id_produto = r.id_produto := by simpa using hb
          rw [this]
          exact List.mem_map.mpr ⟨r, h, rfl⟩)
      rw [List.find?_cons_of_neg (p := fun x : EstoqueRow => x.id_produto == r.id_produto) _ hne]
      exact ih (by simpa using (List.nodup_cons.mp (by simpa using hnd)).2) h

/-! ### Sale loop characterization -/

theorem processItem_ok (st : Store) (idv : Nat) (item : ItemReq) (t : ℚ)
    (st2 : Store) (t2 : ℚ)
    (h : processItem st idv item t = Except.ok (st2, t2)) :
    item.barcode ≠ "" ∧ item.quantidade ≠ "" ∧
    ∃ q p, parseIntJS item.quantidade = some q ∧ 0 < q ∧
      findProdutoByBarcode st item.barcode = some p ∧
      ¬((estoqueOf st p.id).getD 0 < q) ∧
      st2 = decEstoque
        { st with itens_venda :=
            st.itens_venda ++ [⟨idv, p.id, q, precoResolvido p⟩] } p.id q ∧
      t2 = t + (q : ℚ) * precoResolvido p := by
  by_cases hb : item.barcode = "" ∨ item.quantidade = ""
  · simp [processItem, hb] at h
  · cases hq : parseIntJS item.quantidade with
    | none => simp [processItem, hb, hq] at h
    | some q =>
      by_cases hq0 : q ≤ 0
      · simp [processItem, hb, hq, hq0] at h
      · cases hp : findProdutoByBarcode st item.barcode with
        | none => simp [processItem, hb, hq, hq0, hp] at h
        | some p =>
          by_cases hs : (estoqueOf st p.id).getD 0 < q
          · simp [processItem, hb, hq, hq0, hp, hs] at h
          · simp only [processItem, hb, if_false, hq, hq0, hp, hs, if_neg,
              ite_false, Except.ok.injEq, Prod.mk.injEq] at h
            push_neg at hb
            refine ⟨hb.1, hb.2, q, p, rfl, by omega, rfl, hs, ?_, ?_⟩
            · exact h.1.symm
            · exact h.2.symm

theorem processItem_ok_weaker (st : Store) (idv : Nat) (item : ItemReq) (t : ℚ)
    (st2 : Store) (t2 : ℚ)
    (h : processItem st idv item t = Except.ok (st2, t2)) :
    StWeaker st st2 := by
  obtain ⟨-, -, q, p, -, hq0, -, -, hst2, -⟩ := processItem_ok st idv item t st2 t2 h
  subst hst2
  constructor
  · simp [decEstoque]
  · intro pid
    rw [show estoqueOf (decEstoque
        { st with itens_venda := st.itens_venda ++ [⟨idv, p.id, q, precoResolvido p⟩] } p.id q) pid =
        (estoqueOf st pid).map (fun s => if pid = p.id then s - q else s) from
      estoqueOf_decEstoque _ p.id q pid]
    cases hE : estoqueOf st pid with
    | none => simp
    | some s =>
      by_cases hpe : pid = p.id
      · simp [hpe]
        omega
      · simp [hpe]

theorem stWeaker_refl (st : Store) : StWeaker st st :=
  ⟨rfl, fun _ => le_refl _⟩

theorem stWeaker_trans (st0 st1 st2 : Store)
    (h1 : StWeaker st0 st1) (h2 : StWeaker st1 st2) : StWeaker st0 st2 :=
  ⟨h2.1.trans h1.1, fun pid => (h2.2 pid).trans (h1.2 pid)⟩

theorem processItem_error_of_bad (st0 st : Store) (idv : Nat) (item : ItemReq) (t : ℚ)
    (hw : StWeaker st0 st) (hbad : badItem st0 item) :
    ∃ e, processItem st idv item t = Except.error e := by
  cases hres : processItem st idv item t with
  | error e => exact ⟨e, rfl⟩
  | ok pair =>
    exfalso
    obtain ⟨hb, hq, q, p, hparse, hq0, hfind, hstock, -, -⟩ :=
      processItem_ok st idv item t pair.1 pair.2 (by rw [hres])
    have hfind0 : findProdutoByBarcode st0 item.barcode = some p := by
      unfold findProdutoByBarcode at hfind ⊢
      rw [← hw.1]
      exact hfind
    rcases hbad with h | h | h | ⟨q2, hq2, hq2le⟩ | h | ⟨q2, p2, hq2, hp2, hs2⟩
    · exact hb h
    · exact hq h
    · rw [hparse] at h; cases h
    · rw [hparse] at hq2; cases hq2; omega
    · rw [hfind0] at h; cases h
    · rw [hparse] at hq2
      cases hq2
      rw [hfind0] at hp2
      cases hp2
      exact hstock (lt_of_le_of_lt (hw.2 p.id) hs2)

theorem processItens_error_of_bad (st0 : Store) (itens : List ItemReq) :
    ∀ (st : Store) (idv : Nat) (t : ℚ),
      StWeaker st0 st → (∃ item ∈ itens, badItem st0 item) →
      ∃ e, processItens st idv itens t = Except.error e := by
  induction itens with
  | nil =>
    intro st idv t _ hbad
    obtain ⟨item, hmem, -⟩ := hbad
    cases hmem
  | cons item rest ih =>
    intro st idv t hw hbad
    cases hres : processItem st idv item t with
    | error e => exact ⟨e, by simp [processItens, hres]⟩
    | ok pair =>
      have hitem : ¬badItem st0 item := by
        intro hbi
        obtain ⟨e, he⟩ := processItem_error_of_bad st0 st idv item t hw hbi
        rw [hres] at he
        cases he
      obtain ⟨item2, hmem, hbi2⟩ := hbad
      rcases List.mem_cons.mp hmem with h | h
      · exact absurd (h ▸ hbi2) hitem
      · have hw2 : StWeaker st0 pair.1 :=
          stWeaker_trans st0 st pair.1 hw
            (processItem_ok_weaker st idv item t pair.1 pair.2 (by rw [hres]))
        obtain ⟨e, he⟩ := ih pair.1 idv pair.2 hw2 ⟨item2, h, hbi2⟩
        exact ⟨e, by simp [processItens, hres, he]⟩

theorem somaSubtotais_nil : somaSubtotais [] = 0 := rfl

theorem somaSubtotais_cons (x : ItemVenda) (l : List ItemVenda) :
    somaSubtotais (x :: l) = (x.quantidade : ℚ) * x.preco_unitario + somaSubtotais l := by
  simp [somaSubtotais]

theorem processItens_spec (itens : List ItemReq) :
    ∀ (st : Store) (idv : Nat) (t : ℚ) (st2 : Store) (t2 : ℚ),
      processItens st idv itens t = Except.ok (st2, t2) →
      st2.produtos = st.produtos ∧ st2.vendas = st.vendas ∧
      st2.nextVendaId = st.nextVendaId ∧ st2.clientes = st.clientes ∧
      ∃ l, st2.itens_venda = st.itens_venda ++ l ∧
        (∀ it ∈ l, it.id_venda = idv ∧
          ∃ p ∈ st.produtos, p.id = it.id_produto ∧ it.preco_unitario = precoResolvido p) ∧
        t2 = t + somaSubtotais l := by
  induction itens with
  | nil =>
    intro st idv t st2 t2 h
    simp only [processItens, Except.ok.injEq, Prod.mk.injEq] at h
    obtain ⟨h1, h2⟩ := h
    subst h1
    subst h2
    exact ⟨rfl, rfl, rfl, rfl, [], by simp, by simp, by simp [somaSubtotais_nil]⟩
  | cons item rest ih =>
    intro st idv t st2 t2 h
    cases hres : processItem st idv item t with
    | error e => simp [processItens, hres] at h
    | ok pair =>
      obtain ⟨st1, t1⟩ := pair
      have h2 : processItens st1 idv rest t1 = Except.ok (st2, t2) := by
        simpa [processItens, hres] using h
      obtain ⟨hp, hv, hn, hc, l, hl, hprop, ht⟩ := ih st1 idv t1 st2 t2 h2
      obtain ⟨-, -, q, p, hparse, hq0, hfind, hstock, hst1, ht1⟩ :=
        processItem_ok st idv item t st1 t1 hres
      have hpmem : p ∈ st.produtos := by
        unfold findProdutoByBarcode at hfind
        exact List.mem_of_find?_eq_some hfind
      have hst1p : st1.produtos = st.produtos := by rw [hst1]; simp [decEstoque]
      have hst1v : st1.vendas = st.vendas := by rw [hst1]; simp [decEstoque]
      have hst1n : st1.nextVendaId = st.nextVendaId := by rw [hst1]; simp [decEstoque]
      have hst1c : st1.clientes = st.clientes := by rw [hst1]; simp [decEstoque]
      have hst1i : st1.itens_venda =
          st.itens_venda ++ [⟨idv, p.id, q, precoResolvido p⟩] := by
        rw [hst1]; simp [decEstoque]
      refine ⟨hp.trans hst1p, hv.trans hst1v, hn.trans hst1n, hc.trans hst1c,
        ⟨idv, p.id, q, precoResolvido p⟩ :: l, ?_, ?_, ?_⟩
      · rw [hl, hst1i, List.append_assoc]
        rfl
      · intro it hit
        rcases List.mem_cons.mp hit with hh | hh
        · subst hh
          exact ⟨rfl, p, hpmem, rfl, rfl⟩
        · obtain ⟨ha, pp, hpp, hb, hcc⟩ := hprop it hh
          exact ⟨ha, pp, hst1p ▸ hpp, hb, hcc⟩
      · rw [ht, ht1, somaSubtotais_cons]
        ring


theorem processVenda_ok (st : Store) (idc : Option Nat) (itens : List ItemReq) (st2 : Store)
    (h : processVenda st idc itens = Except.ok st2) :
    ¬itens.isEmpty ∧
    ∃ stMid total,
      processItens
        { st with vendas := st.vendas ++ [⟨st.nextVendaId, idc, 0, some "CONCLUIDA"⟩],
                  nextVendaId := st.nextVendaId + 1 } st.nextVendaId itens 0
        = Except.ok (stMid, total) ∧
      st2 = { stMid with vendas := stMid.vendas.map (fun v =>
          if v.id == st.nextVendaId then { v with total := total } else v) } := by
  by_cases hE : itens.isEmpty
  · simp [processVenda, hE] at h
  · cases hloop : processItens
        { st with vendas := st.vendas ++ [⟨st.nextVendaId, idc, 0, some "CONCLUIDA"⟩],
                  nextVendaId := st.nextVendaId + 1 } st.nextVendaId itens 0 with
    | error e =>
      exfalso
      simp only [processVenda, hE, Bool.false_eq_true, if_false, ite_false] at h
      rw [hloop] at h
      cases h
    | ok pair =>
      obtain ⟨stMid, total⟩ := pair
      refine ⟨by simpa using hE, stMid, total, rfl, ?_⟩
      simp only [processVenda, hE, Bool.false_eq_true, if_false, ite_false] at h
      rw [hloop] at h
      simp only [Except.ok.injEq] at h
      exact h.symm

/-- C1: for every sale request that the transaction commits, the total
written back onto the sale header (the row the handler inserted, whose id
is the sale counter before the request) equals the sum of quantidade
times preco_unitario over exactly the line items inserted for that sale,
and every such line item carries the unit price resolved from the product
table at processing time.  The freshness hypotheses say the serial
counters of the store dominate the ids already present, which the
database guarantees for its serial columns. -/
theorem C1_sale_total (st : Store) (idc : Option Nat) (itens : List ItemReq) (st2 : Store)
    (hifresh : ∀ it ∈ st.itens_venda, it.id_venda ≠ st.nextVendaId)
    (hvfresh : ∀ v ∈ st.vendas, v.id < st.nextVendaId)
    (hok : processVenda st idc itens = Except.ok st2) :
    ∃ v, findVenda st2 st.nextVendaId = some v ∧
      v.total = somaSubtotais (vendaItems st2 st.nextVendaId) ∧
      ∀ it ∈ vendaItems st2 st.nextVendaId,
        ∃ p ∈ st.produtos, p.id = it.id_produto ∧ it.preco_unitario = precoResolvido p := by
  obtain ⟨-, stMid, total, hloop, hst2⟩ := processVenda_ok st idc itens st2 hok
  obtain ⟨hp, hv, hn, hc, l, hl, hprop, ht⟩ :=
    processItens_spec itens _ st.nextVendaId 0 stMid total hloop
  have hupd : ∀ v : Venda,
      (((fun v : Venda =>
          if v.id == st.nextVendaId then { v with total := total } else v) v).id
        == st.nextVendaId) = (v.id == st.nextVendaId) := by
    intro v
    by_cases hvv : v.id == st.nextVendaId <;> simp [hvv]
  have hfindv : findVenda st2 st.nextVendaId =
      some ⟨st.nextVendaId, idc, total, some "CONCLUIDA"⟩ := by
    rw [hst2]
    unfold findVenda
    simp only
    rw [find?_map_self _ hupd, hv]
    simp only
    rw [List.find?_append]
    have hnone : st.vendas.find? (fun v => v.id == st.nextVendaId) = none := by
      rw [List.find?_eq_none]
      intro v hvmem
      have := hvfresh v hvmem
      simp only [beq_iff_eq]
      omega
    rw [hnone]
    simp
  have hitens2 : st2.itens_venda = stMid.itens_venda := by rw [hst2]
  have hvitems : vendaItems st2 st.nextVendaId = l := by
    unfold vendaItems
    rw [hitens2, hl]
    simp only
    rw [List.filter_append]
    have h1 : st.itens_venda.filter (fun it => it.id_venda == st.nextVendaId) = [] := by
      rw [List.filter_eq_nil_iff]
      intro it hitmem
      simpa using hifresh it hitmem
    have h2 : l.filter (fun it => it.id_venda == st.nextVendaId) = l := by
      rw [List.filter_eq_self]
      intro it hitmem
      simpa using (hprop it hitmem).1
    rw [h1, h2, List.nil_append]
  refine ⟨⟨st.nextVendaId, idc, total, some "CONCLUIDA"⟩, hfindv, ?_, ?_⟩
  · rw [hvitems]
    simpa using ht
  · intro it hit
    rw [hvitems] at hit
    obtain ⟨-, p, hpmem, hb, hcc⟩ := hprop it hit
    exact ⟨p, by simpa using hpmem, hb, hcc⟩

/-- C2: a sale request containing any item the loop must reject -- falsy
barcode or quantity, unparsable or non-positive quantity, unknown
barcode, or a quantity above the available stock -- makes the whole
handler throw, and the catch block rolls the transaction back, so the
committed store is exactly the input store: no stock decrement, no sale
header and no line item survives, including those of items processed
earlier in the same request. -/
theorem C2_rollback (st : Store) (idc : Option Nat) (itens : List ItemReq)
    (hbad : ∃ item ∈ itens, badItem st item) :
    (∃ e, processVenda st idc itens = Except.error e) ∧
    postVendas st idc itens = st := by
  have herr : ∃ e, processVenda st idc itens = Except.error e := by
    by_cases hE : itens.isEmpty
    · exact ⟨"Nenhum item adicionado à venda", by simp [processVenda, hE]⟩
    · have hw : StWeaker st
          { st with vendas := st.vendas ++ [⟨st.nextVendaId, idc, 0, some "CONCLUIDA"⟩],
                    nextVendaId := st.nextVendaId + 1 } :=
        ⟨rfl, fun _ => le_refl _⟩
      obtain ⟨e, he⟩ :=
        processItens_error_of_bad st itens _ st.nextVendaId 0 hw hbad
      refine ⟨e, ?_⟩
      simp only [processVenda, hE, Bool.false_eq_true, if_false, ite_false]
      rw [he]
  obtain ⟨e, he⟩ := herr
  exact ⟨⟨e, he⟩, by simp [postVendas, he]⟩

theorem processItens_nonneg (itens : List ItemReq) :
    ∀ (st : Store) (idv : Nat) (t : ℚ) (st2 : Store) (t2 : ℚ),
      processItens st idv itens t = Except.ok (st2, t2) →
      (∀ r ∈ st.estoque, 0 ≤ r.quantidade) →
      (st.estoque.map (fun r => r.id_produto)).Nodup →
      ∀ r ∈ st2.estoque, 0 ≤ r.quantidade := by
  induction itens with
  | nil =>
    intro st idv t st2 t2 h hnn hnd
    simp only [processItens, Except.ok.injEq, Prod.mk.injEq] at h
    obtain ⟨h1, -⟩ := h
    subst h1
    exact hnn
  | cons item rest ih =>
    intro st idv t st2 t2 h hnn hnd
    cases hres : processItem st idv item t with
    | error e => simp [processItens, hres] at h
    | ok pair =>
      obtain ⟨st1, t1⟩ := pair
      have h2 : processItens st1 idv rest t1 = Except.ok (st2, t2) := by
        simpa [processItens, hres] using h
      obtain ⟨-, -, q, p, hparse, hq0, hfind, hstock, hst1, -⟩ :=
        processItem_ok st idv item t st1 t1 hres
      have hst1e : st1.estoque = st.estoque.map (fun r =>
          if r.id_produto == p.id then { r with quantidade := r.quantidade - q } else r) := by
        rw [hst1]
        rfl
      have hnn1 : ∀ r ∈ st1.estoque, 0 ≤ r.quantidade := by
        intro r' hr'
        rw [hst1e] at hr'
        obtain ⟨r, hrmem, hrr⟩ := List.mem_map.mp hr'
        by_cases hrp : r.id_produto = p.id
        · have hfound : estoqueOf st p.id = some r.quantidade := by
            unfold estoqueOf
            rw [← hrp, estoque_find?_eq st.estoque r hnd hrmem]
            rfl
          rw [hfound] at hstock
          simp only [Option.getD_some] at hstock
          have hbeq : (r.id_produto == p.id) = true := beq_iff_eq.mpr hrp
          rw [← hrr]
          simp only [hbeq, if_true, ite_true]
          have hge := hnn r hrmem
          show 0 ≤ r.quantidade - q
          omega
        · have hbeq : (r.id_produto == p.id) = false := by
            simpa using hrp
          rw [← hrr]
          simp only [hbeq, Bool.false_eq_true, if_false, ite_false]
          exact hnn r hrmem
      have hnd1 : (st1.estoque.map (fun r => r.id_produto)).Nodup := by
        rw [hst1e, List.map_map]
        have hcomp : ((fun r : EstoqueRow => r.id_produto) ∘ (fun r : EstoqueRow =>
            if r.id_produto == p.id then { r with quantidade := r.quantidade - q } else r))
            = (fun r : EstoqueRow => r.id_produto) := by
          funext r
          by_cases hrp : r.id_produto = p.id <;> simp [hrp]
        rw [hcomp]
        exact hnd
      exact ih st1 idv t1 st2 t2 h2 hnn1 hnd1

/-- C9: sale creation preserves the non-negativity of stock.  If every
stock row is non-negative and the stock rows are one per product (the
shape the application maintains), then after any committed sale every
stock row is still non-negative, because each item of the request is
accepted only when its quantity is at most the stock read in the same
transaction, a missing stock row reading as zero. -/
theorem C9_stock_nonneg (st : Store) (idc : Option Nat) (itens : List ItemReq) (st2 : Store)
    (hnn : ∀ r ∈ st.estoque, 0 ≤ r.quantidade)
    (hnd : (st.estoque.map (fun r => r.id_produto)).Nodup)
    (hok : processVenda st idc itens = Except.ok st2) :
    ∀ r ∈ st2.estoque, 0 ≤ r.quantidade := by
  obtain ⟨-, stMid, total, hloop, hst2⟩ := processVenda_ok st idc itens st2 hok
  have hse : st2.estoque = stMid.estoque := by rw [hst2]
  intro r hr
  rw [hse] at hr
  exact processItens_nonneg itens _ st.nextVendaId 0 stMid total hloop hnn hnd r hr

theorem qtyRevertida_nil (pid : Nat) : qtyRevertida [] pid = 0 := rfl

theorem qtyRevertida_cons (it : ItemVenda) (l : List ItemVenda) (pid : Nat) :
    qtyRevertida (it :: l) pid =
      (if it.id_produto = pid then it.quantidade else 0) + qtyRevertida l pid := by
  by_cases h : it.id_produto = pid <;> simp [qtyRevertida, h]

theorem restock_estoqueOf (itens : List ItemVenda) :
    ∀ (st : Store) (pid : Nat),
      estoqueOf (itens.foldl (fun acc it => incEstoque acc it.id_produto it.quantidade) st) pid
        = (estoqueOf st pid).map (fun s => s + qtyRevertida itens pid) := by
  induction itens with
  | nil =>
    intro st pid
    cases hE : estoqueOf st pid <;> simp [qtyRevertida_nil, hE]
  | cons it rest ih =>
    intro st pid
    have hfold : (it :: rest).foldl
        (fun acc x => incEstoque acc x.id_produto x.quantidade) st
        = rest.foldl (fun acc x => incEstoque acc x.id_produto x.quantidade)
            (incEstoque st it.id_produto it.quantidade) := rfl
    rw [hfold, ih, estoqueOf_incEstoque, qtyRevertida_cons]
    cases hE : estoqueOf st pid with
    | none => simp
    | some s =>
      by_cases h : pid = it.id_produto
      · subst h
        simp
        omega
      · have h2 : ¬it.id_produto = pid := fun hc => h hc.symm
        simp [h, h2]

theorem restock_fields (itens : List ItemVenda) :
    ∀ st : Store,
      (itens.foldl (fun acc it => incEstoque acc it.id_produto it.quantidade) st).produtos
          = st.produtos ∧
      (itens.foldl (fun acc it => incEstoque acc it.id_produto it.quantidade) st).clientes
          = st.clientes ∧
      (itens.foldl (fun acc it => incEstoque acc it.id_produto it.quantidade) st).vendas
          = st.vendas ∧
      (itens.foldl (fun acc it => incEstoque acc it.id_produto it.quantidade) st).itens_venda
          = st.itens_venda := by
  induction itens with
  | nil => intro st; exact ⟨rfl, rfl, rfl, rfl⟩
  | cons it rest ih =>
    intro st
    obtain ⟨h1, h2, h3, h4⟩ := ih (incEstoque st it.id_produto it.quantidade)
    exact ⟨h1, h2, h3, h4⟩

/-- C3: reversing a sale that exists and is not yet cancelled succeeds;
each product stock gains exactly the summed quantity of the line
items (stocks of untouched products keep their value, and a product
without a stock row still has none); the sale row keeps its id, customer
and total and only its status changes to CANCELADA; the line item table
is untouched; and a second reversal of the same sale is rejected with the
store unchanged. -/
theorem C3_reversal (st : Store) (vid : Nat) (venda : Venda)
    (hfind : findVenda st vid = some venda)
    (hnc : statusCancelada venda.status = false) :
    ∃ st2, reverterVenda st vid = (st2, none) ∧
      (∀ pid, estoqueOf st2 pid =
        (estoqueOf st pid).map (fun s => s + qtyRevertida (vendaItems st vid) pid)) ∧
      findVenda st2 vid = some { venda with status := some "CANCELADA" } ∧
      st2.itens_venda = st.itens_venda ∧
      reverterVenda st2 vid = (st2, some "Venda já está cancelada.") := by
  have hvid : venda.id = vid := by
    have := List.find?_some hfind
    simpa using this
  set stR : Store := (vendaItems st vid).foldl
      (fun acc it => incEstoque acc it.id_produto it.quantidade) st with hstR
  set st2 : Store :=
    { stR with vendas := stR.vendas.map (fun v =>
        if v.id == vid then { v with status := some "CANCELADA" } else v) } with hst2
  have hred : reverterVenda st vid = (st2, none) := by
    unfold reverterVenda
    rw [hfind]
    simp only [hnc, Bool.false_eq_true, if_false, ite_false]
  obtain ⟨hFp, hFc, hFv, hFi⟩ := restock_fields (vendaItems st vid) st
  have hupd : ∀ v : Venda,
      (((fun v : Venda => if v.id == vid then { v with status := some "CANCELADA" } else v) v).id
        == vid) = (v.id == vid) := by
    intro v
    by_cases hvv : v.id == vid <;> simp [hvv]
  have hfind2 : findVenda st2 vid = some { venda with status := some "CANCELADA" } := by
    rw [hst2]
    unfold findVenda
    simp only
    rw [find?_map_self _ hupd, hFv]
    unfold findVenda at hfind
    rw [hfind]
    simp [hvid]
  refine ⟨st2, hred, ?_, hfind2, ?_, ?_⟩
  · intro pid
    have he2 : estoqueOf st2 pid = estoqueOf stR pid := rfl
    rw [he2, hstR, restock_estoqueOf]
  · exact hFi
  · unfold reverterVenda
    rw [hfind2]
    have hcanc : statusCancelada (some "CANCELADA") = true := by decide
    simp only [hcanc, if_true, ite_true]

/-- C4: the tax identifier validator accepts an input exactly when the
spec-side normal form (strip dots and hyphens, trim) is exactly 11
decimal digits; on acceptance the value it returns for storage is that
normal form, and on any other input it throws the descriptive error
message. -/
theorem C4_cpf_validation (s : String) :
    (specAcceptsCPF s →
      cleanAndValidateCPF s = Except.ok (trimStr (stripPunct s))) ∧
    (¬specAcceptsCPF s →
      cleanAndValidateCPF s =
        Except.error "CPF inválido. Deve conter 11 dígitos numéricos.") := by
  constructor
  · intro h
    obtain ⟨h1, h2⟩ := h
    have hcond : (trimStr (stripPunct s)).data.length = 11 ∧
        (trimStr (stripPunct s)).data.all (fun c => c.isDigit) :=
      ⟨h1, List.all_eq_true.mpr h2⟩
    simp only [cleanAndValidateCPF]
    rw [if_pos hcond]
  · intro h
    have hcond : ¬((trimStr (stripPunct s)).data.length = 11 ∧
        (trimStr (stripPunct s)).data.all (fun c => c.isDigit)) := by
      intro hc
      exact h ⟨hc.1, List.all_eq_true.mp hc.2⟩
    simp only [cleanAndValidateCPF]
    rw [if_neg hcond]

/-- C5: a customer create whose cleaned identifier is already stored, and
a customer edit whose cleaned identifier is stored for a different row,
are both rejected: the customer table (indeed the whole store) is
returned untouched and the response is the redirect that carries an error
message together with the submitted form input unchanged. -/
theorem C5_duplicate_cpf (st : Store) (form : ClienteForm) (cid : Nat) (cleaned : String)
    (hv : cleanAndValidateCPF form.cpf = Except.ok cleaned)
    (hdupE : ∃ c ∈ st.clientes, c.cpf = cleaned ∧ c.id ≠ cid) :
    (postClientes st form).1 = st ∧
    (∃ m, (postClientes st form).2 = ClienteResult.errRedirect m form) ∧
    (postClientesEditar st cid form).1 = st ∧
    (∃ m, (postClientesEditar st cid form).2 = ClienteResult.errRedirect m form) := by
  obtain ⟨c, hcmem, hccpf, hcne⟩ := hdupE
  by_cases hn : form.nome = ""
  · refine ⟨?_, ⟨"Nome é obrigatório", ?_⟩, ?_, ⟨"Nome é obrigatório", ?_⟩⟩ <;>
      simp [postClientes, postClientesEditar, hn]
  · have hanyC : st.clientes.any (fun x => x.cpf == cleaned) = true :=
      List.any_eq_true.mpr ⟨c, hcmem, beq_iff_eq.mpr hccpf⟩
    have hanyE : st.clientes.any (fun x => x.cpf == cleaned && !(x.id == cid)) = true := by
      refine List.any_eq_true.mpr ⟨c, hcmem, ?_⟩
      simp [hccpf, hcne]
    refine ⟨?_, ⟨"CPF já cadastrado", ?_⟩, ?_, ⟨"CPF já cadastrado para outro cliente", ?_⟩⟩ <;>
      simp [postClientes, postClientesEditar, hn, hv, hanyC, hanyE]

theorem formatBarcode_spec (id : Nat) (hlen : (toString id).data.length ≤ 12) :
    formatBarcodeFromId id = specBarcode id ∧ (specBarcode id).data.length = 12 := by
  have hplen : (padStartStr (toString id) 12 '0').data.length = 12 := by
    unfold padStartStr
    simp only [List.length_append, List.length_replicate]
    omega
  constructor
  · unfold formatBarcodeFromId
    by_cases h0 : id = 0
    · subst h0
      decide
    · rw [if_neg h0]
      show sliceLast (padStartStr (toString id) 12 '0') 12 = specBarcode id
      unfold sliceLast specBarcode
      rw [hplen]
      simp
  · exact hplen

/-- C6: in the later revisions the stored barcode of a product is forced
to its own id rendered in decimal and zero-padded to exactly 12 digits,
whatever barcode the client submitted (the form argument, barcode field
included, is arbitrary): the create handler first inserts the row with a
null barcode (the id is unknown before insertion) and then updates it
from the returned id, and the edit handler overwrites the barcode from
the route id.  The length hypotheses hold for every id an integer column
can carry (at most 10 decimal digits). -/
theorem C6_barcode_forced (st : Store) (form form2 : ProdutoForm) (pid : Nat) (p0 : Produto)
    (hfresh : ∀ p ∈ st.produtos, p.id < st.nextProdutoId)
    (hlen : (toString st.nextProdutoId).data.length ≤ 12)
    (hedit : findProduto st pid = some p0)
    (hlen2 : (toString pid).data.length ≤ 12) :
    findProduto (postProdutosInsert st form).1 st.nextProdutoId = some
      ⟨st.nextProdutoId, form.nome, none, form.valor_unitario, form.valor_venda,
        form.descricao, false⟩ ∧
    (∃ p, findProduto (postProdutos st form) st.nextProdutoId = some p ∧
      p.barcode = some (specBarcode st.nextProdutoId) ∧
      (specBarcode st.nextProdutoId).data.length = 12) ∧
    (∃ p, findProduto (postProdutosEditar st pid form2) pid = some p ∧
      p.barcode = some (specBarcode pid) ∧ (specBarcode pid).data.length = 12) := by
  obtain ⟨hbc, hbl⟩ := formatBarcode_spec st.nextProdutoId hlen
  obtain ⟨hbc2, hbl2⟩ := formatBarcode_spec pid hlen2
  have hnone : st.produtos.find? (fun p => p.id == st.nextProdutoId) = none := by
    rw [List.find?_eq_none]
    intro p hpmem
    have := hfresh p hpmem
    simp only [beq_iff_eq]
    omega
  have hins : findProduto (postProdutosInsert st form).1 st.nextProdutoId = some
      ⟨st.nextProdutoId, form.nome, none, form.valor_unitario, form.valor_venda,
        form.descricao, false⟩ := by
    unfold findProduto postProdutosInsert
    simp only
    rw [List.find?_append, hnone]
    simp
  refine ⟨hins, ?_, ?_⟩
  · have hupd : ∀ p : Produto,
        (((fun p : Produto =>
            if p.id == st.nextProdutoId then
              { p with barcode := some (formatBarcodeFromId st.nextProdutoId) }
            else p) p).id == st.nextProdutoId) = (p.id == st.nextProdutoId) := by
      intro p
      by_cases hp : p.id == st.nextProdutoId <;> simp [hp]
    refine ⟨⟨st.nextProdutoId, form.nome, some (specBarcode st.nextProdutoId),
      form.valor_unitario, form.valor_venda, form.descricao, false⟩, ?_, rfl, hbl⟩
    unfold postProdutos
    unfold findProduto at hins ⊢
    simp only [postProdutosInsert]
    rw [find?_map_self _ hupd]
    unfold postProdutosInsert at hins
    simp only at hins
    rw [hins]
    simp [hbc]
  · have hp0id : p0.id = pid := by
      have := List.find?_some hedit
      simpa using this
    have hupd2 : ∀ p : Produto,
        (((fun p : Produto =>
            if p.id == pid then
              { p with nome := form2.nome,
                       barcode := some (formatBarcodeFromId pid),
                       valor_unitario := form2.valor_unitario,
                       valor_venda := form2.valor_venda,
                       descricao := form2.descricao }
            else p) p).id == pid) = (p.id == pid) := by
      intro p
      by_cases hp : p.id == pid <;> simp [hp]
    refine ⟨⟨p0.id, form2.nome, some (specBarcode pid), form2.valor_unitario,
      form2.valor_venda, form2.descricao, p0.etiquetas_impressas⟩, ?_, rfl, hbl2⟩
    unfold postProdutosEditar
    unfold findProduto at hedit ⊢
    simp only
    rw [find?_map_self _ hupd2, hedit]
    simp [hp0id, hbc2]

/-- C7: the unit price resolution of the sale loop.  At the raw driver
level, where a non-null numeric column arrives as a nonempty decimal
string, the or-else chain of Number(valor_venda or valor_unitario or 0)
selects exactly the sale price string when the column is non-null and the
unit cost string when it is null; correspondingly the value-level
resolution recorded on every line item is the sale price when present
and the unit cost otherwise. -/
theorem C7_price_resolution (sv vu : String) (p : Produto)
    (hsv : sv ≠ "") (hvu : vu ≠ "") :
    getPrecoRaw (some sv) vu = sv ∧ getPrecoRaw none vu = vu ∧
    precoResolvido p =
      (match p.valor_venda with
       | some v => v
       | none => p.valor_unitario) := by
  refine ⟨?_, ?_, ?_⟩
  · simp [getPrecoRaw, hsv]
  · simp [getPrecoRaw, hvu]
  · cases hpv : p.valor_venda <;> simp [precoResolvido, hpv]

theorem cargaLoopFailAt_eq (rows : List ExcelRow) :
    ∀ (st : Store) (k : Nat),
      cargaLoopFailAt st rows k = cargaLoop st (rows.take k) := by
  induction rows with
  | nil =>
    intro st k
    cases k <;> rfl
  | cons r rs ih =>
    intro st k
    cases k with
    | zero => rfl
    | succ k2 =>
      show cargaLoopFailAt (cargaStep st r) rs k2
          = cargaLoop (cargaStep st r) (rs.take k2)
      exact ih (cargaStep st r) k2

/-- C8: bulk import commits row by row.  A database failure inside the
transaction of the k-th data row (sheet row 1 + k, the loop starting
after the header row) leaves exactly the state produced by importing the
first k data rows: the writes of the failed row are rolled back by its
transaction and every earlier row stays committed, so there is no
file-level atomicity.  Moreover a row whose first cell is absent, empty,
or reads TOTAL once uppercased is skipped and leaves the store
untouched. -/
theorem C8_per_row_transactions (st : Store) (data : List ExcelRow) (k : Nat) (row : ExcelRow)
    (hskip : rowSkipped row) :
    cargaWithFailure st data k = carga st (data.take (1 + k)) ∧
    cargaStep st row = st := by
  constructor
  · unfold cargaWithFailure carga
    rw [cargaLoopFailAt_eq]
    congr 1
    rw [List.drop_take]
    congr 1
    omega
  · simp [cargaStep, hskip]

theorem cargaStep_vendas (st : Store) (row : ExcelRow) :
    (cargaStep st row).vendas = st.vendas := by
  by_cases hs : rowSkipped row
  · simp [cargaStep, hs]
  · cases hq : jsNumberCell row.c1 with
    | none => simp [cargaStep, hs, hq]
    | some q =>
      by_cases hq0 : q < 0 <;> simp [cargaStep, hs, hq, hq0]

theorem cargaLoop_vendas (rows : List ExcelRow) :
    ∀ st : Store, (cargaLoop st rows).vendas = st.vendas := by
  induction rows with
  | nil => intro st; rfl
  | cons r rs ih =>
    intro st
    show (cargaLoop (cargaStep st r) rs).vendas = st.vendas
    rw [ih (cargaStep st r), cargaStep_vendas]

theorem postClientes_vendas (st : Store) (form : ClienteForm) :
    (postClientes st form).1.vendas = st.vendas := by
  by_cases hn : form.nome = ""
  · simp [postClientes, hn]
  · cases hcv : cleanAndValidateCPF form.cpf with
    | error e => simp [postClientes, hn, hcv]
    | ok cleaned =>
      by_cases ha : st.clientes.any (fun c => c.cpf == cleaned) <;>
        simp [postClientes, hn, hcv, ha]

theorem postClientesEditar_vendas (st : Store) (cid : Nat) (form : ClienteForm) :
    (postClientesEditar st cid form).1.vendas = st.vendas := by
  by_cases hn : form.nome = ""
  · simp [postClientesEditar, hn]
  · cases hcv : cleanAndValidateCPF form.cpf with
    | error e => simp [postClientesEditar, hn, hcv]
    | ok cleaned =>
      by_cases ha : st.clientes.any (fun c => c.cpf == cleaned && !(c.id == cid)) <;>
        simp [postClientesEditar, hn, hcv, ha]


/-- C10: a cancelled sale can never become non-cancelled again.  Under
every state-mutating handler of the application, a sale row whose status
is cancelled survives completely unchanged: reversal rejects it (or
touches only a different sale row), sale creation only appends a fresh
header with the default CONCLUIDA status, and no other handler writes to
the sale table at all.  The hypothesis says the serial sale counter
dominates the stored ids, which the database guarantees. -/
theorem C10_cancel_absorbing (st : Store) (op : Op) (i : Nat) (v : Venda)
    (hwf : ∀ w ∈ st.vendas, w.id < st.nextVendaId)
    (hfind : findVenda st i = some v)
    (hc : statusCancelada v.status = true) :
    findVenda (stepOp st op) i = some v := by
  have hvid : v.id = i := by
    have := List.find?_some hfind
    simpa using this
  have hvmem : v ∈ st.vendas := List.mem_of_find?_eq_some hfind
  have hfindOf : ∀ st2 : Store, st2.vendas = st.vendas → findVenda st2 i = some v := by
    intro st2 h2
    unfold findVenda at hfind ⊢
    rw [h2]
    exact hfind
  cases op with
  | vendas idc itens =>
    show findVenda (postVendas st idc itens) i = some v
    unfold postVendas
    cases hpv : processVenda st idc itens with
    | error e => exact hfind
    | ok st2 =>
      obtain ⟨-, stMid, total, hloop, hst2⟩ := processVenda_ok st idc itens st2 hpv
      obtain ⟨-, hv2, -, -, -⟩ :=
        processItens_spec itens _ st.nextVendaId 0 stMid total hloop
      have hupd : ∀ w : Venda,
          (((fun w : Venda =>
              if w.id == st.nextVendaId then { w with total := total } else w) w).id
            == i) = (w.id == i) := by
        intro w
        by_cases hww : w.id == st.nextVendaId <;> simp [hww]
      have hlt : v.id < st.nextVendaId := hwf v hvmem
      unfold findVenda
      rw [hst2]
      simp only
      rw [find?_map_self _ hupd, hv2]
      simp only
      rw [List.find?_append]
      unfold findVenda at hfind
      rw [hfind]
      have hne : (v.id == st.nextVendaId) = false := by
        simp only [beq_eq_false_iff_ne, ne_eq]
        omega
      simp [hne]
      intro heq
      exact absurd heq (by omega)
  | reverter vid =>
    show findVenda (reverterVenda st vid).1 i = some v
    unfold reverterVenda
    cases hfv : findVenda st vid with
    | none => exact hfind
    | some venda2 =>
      by_cases hcs : statusCancelada venda2.status = true
      · simp only [hcs, if_true, ite_true]
        exact hfind
      · simp only [hcs, Bool.false_eq_true, if_false, ite_false]
        have hvne : (v.id == vid) = false := by
          by_cases hiv : vid = i
          · exfalso
            subst hiv
            rw [hfind] at hfv
            injection hfv with hh
            rw [← hh] at hcs
            exact hcs hc
          · simp only [beq_eq_false_iff_ne, ne_eq, hvid]
            exact fun hh => hiv hh.symm
        obtain ⟨-, -, hFv, -⟩ := restock_fields (vendaItems st vid) st
        have hupd : ∀ w : Venda,
            (((fun w : Venda =>
                if w.id == vid then { w with status := some "CANCELADA" } else w) w).id
              == i) = (w.id == i) := by
          intro w
          by_cases hww : w.id == vid <;> simp [hww]
        show findVenda
            { (vendaItems st vid).foldl
                (fun acc it => incEstoque acc it.id_produto it.quantidade) st with
              vendas := ((vendaItems st vid).foldl
                (fun acc it => incEstoque acc it.id_produto it.quantidade) st).vendas.map
                  (fun w => if w.id == vid then { w with status := some "CANCELADA" } else w) }
            i = some v
        unfold findVenda
        simp only
        rw [find?_map_self _ hupd, hFv]
        unfold findVenda at hfind
        rw [hfind]
        simp [hvne]
        intro heq
        exfalso
        rw [heq] at hvne
        simp at hvne
  | produtoCreate form => exact hfindOf _ rfl
  | produtoEdit pid form => exact hfindOf _ rfl
  | produtoDelete pid => exact hfindOf _ rfl
  | produtoToggle pid => exact hfindOf _ rfl
  | produtoEtiqueta pid => exact hfindOf _ rfl
  | clienteCreate form => exact hfindOf _ (postClientes_vendas st form)
  | clienteEdit cid form => exact hfindOf _ (postClientesEditar_vendas st cid form)
  | clienteDelete cid => exact hfindOf _ rfl
  | cargaProdutos data => exact hfindOf _ (cargaLoop_vendas (data.drop 1) st)

theorem C1_sale_total_witness :
    ∃ v, findVenda (postVendas demoStore none demoItens) demoStore.nextVendaId = some v ∧
      v.total = somaSubtotais (vendaItems (postVendas demoStore none demoItens)
        demoStore.nextVendaId) ∧
      ∀ it ∈ vendaItems (postVendas demoStore none demoItens) demoStore.nextVendaId,
        ∃ p ∈ demoStore.produtos, p.id = it.id_produto ∧ it.preco_unitario = precoResolvido p :=
  C1_sale_total demoStore none demoItens (postVendas demoStore none demoItens)
    (by decide) (by decide) rfl

theorem C2_rollback_witness :
    (∃ e, processVenda demoStore none demoItensBad = Except.error e) ∧
    postVendas demoStore none demoItensBad = demoStore :=
  C2_rollback demoStore none demoItensBad
    ⟨⟨"999", "1"⟩, by decide, Or.inr (Or.inr (Or.inr (Or.inr (Or.inl (by decide)))))⟩

theorem C3_reversal_witness :
    ∃ st2, reverterVenda demoStore 1 = (st2, none) ∧
      (∀ pid, estoqueOf st2 pid =
        (estoqueOf demoStore pid).map (fun s => s + qtyRevertida (vendaItems demoStore 1) pid)) ∧
      findVenda st2 1 = some { demoVenda1 with status := some "CANCELADA" } ∧
      st2.itens_venda = demoStore.itens_venda ∧
      reverterVenda st2 1 = (st2, some "Venda já está cancelada.") :=
  C3_reversal demoStore 1 demoVenda1 (by decide) (by decide)

theorem C4_cpf_validation_witness :
    cleanAndValidateCPF "123.456.789-01" = Except.ok (trimStr (stripPunct "123.456.789-01")) ∧
    cleanAndValidateCPF "12ab" =
      Except.error "CPF inválido. Deve conter 11 dígitos numéricos." :=
  ⟨(C4_cpf_validation "123.456.789-01").1 (by decide),
   (C4_cpf_validation "12ab").2 (by decide)⟩

theorem C5_duplicate_cpf_witness :
    (postClientes demoStore ⟨"Bia", "123.456.789-01", none, none, none⟩).1 = demoStore ∧
    (∃ m, (postClientes demoStore ⟨"Bia", "123.456.789-01", none, none, none⟩).2 =
      ClienteResult.errRedirect m ⟨"Bia", "123.456.789-01", none, none, none⟩) ∧
    (postClientesEditar demoStore 2 ⟨"Bia", "123.456.789-01", none, none, none⟩).1 = demoStore ∧
    (∃ m, (postClientesEditar demoStore 2 ⟨"Bia", "123.456.789-01", none, none, none⟩).2 =
      ClienteResult.errRedirect m ⟨"Bia", "123.456.789-01", none, none, none⟩) :=
  C5_duplicate_cpf demoStore ⟨"Bia", "123.456.789-01", none, none, none⟩ 2 "12345678901"
    (by decide) ⟨⟨1, "Ana", "12345678901", none, none, none⟩, by decide, by decide, by decide⟩

theorem C6_barcode_forced_witness :
    findProduto (postProdutosInsert demoStore ⟨"Lapis", "CLIENTBC", 2, none, none, "4"⟩).1
        demoStore.nextProdutoId =
      some ⟨demoStore.nextProdutoId, "Lapis", none, 2, none, none, false⟩ ∧
    (∃ p, findProduto (postProdutos demoStore ⟨"Lapis", "CLIENTBC", 2, none, none, "4"⟩)
        demoStore.nextProdutoId = some p ∧
      p.barcode = some (specBarcode demoStore.nextProdutoId) ∧
      (specBarcode demoStore.nextProdutoId).data.length = 12) ∧
    (∃ p, findProduto (postProdutosEditar demoStore 1 ⟨"Borracha", "XYZ", 1, none, none, "9"⟩) 1
        = some p ∧
      p.barcode = some (specBarcode 1) ∧ (specBarcode 1).data.length = 12) :=
  C6_barcode_forced demoStore ⟨"Lapis", "CLIENTBC", 2, none, none, "4"⟩
    ⟨"Borracha", "XYZ", 1, none, none, "9"⟩ 1 demoProduto1
    (by decide) (by decide) (by decide) (by decide)

theorem C7_price_resolution_witness :
    getPrecoRaw (some "10.50") "7.00" = "10.50" ∧
    getPrecoRaw none "7.00" = "7.00" ∧
    precoResolvido demoProduto1 =
      (match demoProduto1.valor_venda with
       | some v => v
       | none => demoProduto1.valor_unitario) :=
  C7_price_resolution "10.50" "7.00" demoProduto1 (by decide) (by decide)

theorem C8_per_row_transactions_witness :
    cargaWithFailure demoStore
      [⟨some "Descricao", some "Qtd", none, none, none, none⟩,
       ⟨some "Cola", some "5", none, none, some "2.50", some "4.00"⟩,
       ⟨some "Fita", some "2", none, none, some "1.00", none⟩] 1
      = carga demoStore (List.take (1 + 1)
        [⟨some "Descricao", some "Qtd", none, none, none, none⟩,
         ⟨some "Cola", some "5", none, none, some "2.50", some "4.00"⟩,
         ⟨some "Fita", some "2", none, none, some "1.00", none⟩]) ∧
    cargaStep demoStore ⟨some "TOTAL", none, none, none, none, none⟩ = demoStore :=
  C8_per_row_transactions demoStore
    [⟨some "Descricao", some "Qtd", none, none, none, none⟩,
     ⟨some "Cola", some "5", none, none, some "2.50", some "4.00"⟩,
     ⟨some "Fita", some "2", none, none, some "1.00", none⟩] 1
    ⟨some "TOTAL", none, none, none, none, none⟩ (by decide)

theorem C9_stock_nonneg_witness :
    (⟨1, 8⟩ : EstoqueRow) ∈ (postVendas demoStore none demoItens).estoque ∧
    0 ≤ (⟨1, 8⟩ : EstoqueRow).quantidade :=
  ⟨by decide,
   C9_stock_nonneg demoStore none demoItens (postVendas demoStore none demoItens)
     (by decide) (by decide) rfl ⟨1, 8⟩ (by decide)⟩

theorem C10_cancel_absorbing_witness :
    findVenda (stepOp demoStoreCancel (Op.reverter 1)) 1 =
      some ⟨1, some 1, 16, some "CANCELADA"⟩ :=
  C10_cancel_absorbing demoStoreCancel (Op.reverter 1) 1 ⟨1, some 1, 16, some "CANCELADA"⟩
    (by decide) (by decide) (by decide)
